import Mathlib

/-!
Verification development for the `ImageGenerator` class of the
image-generator repository (`src/imageGenerator.js`).

The numeric model: JavaScript numbers performing exact rational
arithmetic are embedded as `ℚ`; the two places the source takes a
square root (`estimateInitialDimensions` and `adjustDimensions`) are
embedded over `ℝ` with `Real.sqrt` and Mathlib's `round`
(`round x = ⌊x + 1/2⌋`, matching JavaScript's `Math.round`).
Pixel dimensions are integers (`ℤ`) throughout, as every dimension in
the source is produced by `Math.round` / integer constants.
The rendering collaborator `generateImageWithText` (Jimp-backed) is an
external parameter `render : ℤ → ℤ → ℕ → List ℕ` mapping
width, height and quality to the encoded byte buffer; the loop
measures the buffer with `getImageSize` = `List.length`.
-/

namespace ImageGen

/-- Lowercasing of a format string, modelling `String.prototype.toLowerCase`
for the ASCII format names used by the source. -/
def lowerStr (s : String) : String :=
  ⟨s.data.map Char.toLower⟩

/-- `ImageGenerator.isFormatSupported`: the supported-formats list is
`["jpg", "jpeg", "png"]` and membership is checked on the lowercased string. -/
def isFormatSupported (format : String) : Bool :=
  ["jpg", "jpeg", "png"].contains (lowerStr format)

/-- The JPEG-family test used repeatedly by the source:
`format.toLowerCase() === "jpg" || format.toLowerCase() === "jpeg"`. -/
def isJpeg (format : String) : Bool :=
  lowerStr format == "jpg" || lowerStr format == "jpeg"

/-- `ImageGenerator.mbToBytes`: `mb * 1024 * 1024`. -/
def mbToBytes (mb : ℚ) : ℚ :=
  mb * (1024 * 1024)

/-- `ImageGenerator.bytesToMB`: `bytes / (1024 * 1024)`. -/
def bytesToMB (bytes : ℚ) : ℚ :=
  bytes / (1024 * 1024)

/-- The `compressionFactors` table of `estimateInitialDimensions`:
`jpg/jpeg → 1.5`, `png → 1.2`, any other value falls back to `1.5`. -/
def compressionFactor (format : String) : ℚ :=
  if lowerStr format = "jpg" then 3/2
  else if lowerStr format = "jpeg" then 3/2
  else if lowerStr format = "png" then 6/5
  else 3/2

open Classical in
/-- `ImageGenerator.estimateInitialDimensions`: estimate pixels from the
target byte count and the compression factor, solve for a 16:9 canvas,
clamp to the 32767 ceiling, round, and floor at 100×56. -/
noncomputable def estimateInitialDimensions (targetSizeBytes : ℚ) (format : String) : ℤ × ℤ :=
  let maxDimension : ℝ := 32767
  let factor : ℚ := compressionFactor format
  let estimatedPixels : ℝ := (targetSizeBytes : ℝ) / (factor : ℝ)
  let aspect : ℝ := 16 / 9
  let width : ℝ := Real.sqrt (estimatedPixels * aspect)
  let height : ℝ := estimatedPixels / width
  let clamped : ℝ × ℝ :=
    if width > maxDimension ∨ height > maxDimension then
      let pre : ℝ × ℝ :=
        if width > height then (maxDimension, maxDimension / aspect)
        else (maxDimension * aspect, maxDimension)
      (min pre.1 maxDimension, min pre.2 maxDimension)
    else (width, height)
  (max (round clamped.1) 100, max (round clamped.2) 56)

open Classical in
/-- `ImageGenerator.adjustDimensions`: area-proportional rescaling by
`sqrt(targetSize / currentSize)`, rounded, floored at 50×50. -/
noncomputable def adjustDimensions (currentSize targetSize : ℚ)
    (currentWidth currentHeight : ℤ) : ℤ × ℤ :=
  let sizeQuot : ℝ := (targetSize : ℝ) / (currentSize : ℝ)
  let scaleFactor : ℝ := Real.sqrt sizeQuot
  let newWidth : ℤ := round ((currentWidth : ℝ) * scaleFactor)
  let newHeight : ℤ := round ((currentHeight : ℝ) * scaleFactor)
  (max newWidth 50, max newHeight 50)

/-- `ImageGenerator.isWithinTolerance`:
`|actualSize - targetSize| < targetSize * tolerance`. -/
def isWithinTolerance (actualSize targetSize : ℚ) (tolerance : ℚ := 5/100) : Prop :=
  |actualSize - targetSize| < targetSize * tolerance

noncomputable instance (a t tol : ℚ) : Decidable (isWithinTolerance a t tol) :=
  Classical.propDecidable _

/-- The quality step table used when dimensions exceed the ceiling for a
JPEG-family format: seed quality from the bytes-per-pixel estimate. -/
def qualityForBytesPerPixel (bytesPerPixel : ℚ) : ℕ :=
  if bytesPerPixel > 2 then 100
  else if bytesPerPixel > 3/2 then 95
  else if bytesPerPixel > 1 then 90
  else if bytesPerPixel > 1/2 then 80
  else 70

/-- Mutable loop state of `generateImageWithTargetSize`: current dimensions,
current JPEG quality, the last rendered buffer and its measured size
(`undefined` before the first render, hence `Option`), plus the
instrumented list of render invocations `(width, height, quality)`. -/
structure LoopState where
  width : ℤ
  height : ℤ
  quality : ℕ
  buffer : Option (List ℕ) := none
  actualSize : Option ℕ := none
  renders : List (ℤ × ℤ × ℕ) := []

/-- The ceiling check at the top of each loop iteration (source lines
365–399): if a dimension strictly exceeds 32767, rescale preserving the
current aspect, clamp both to 32767, and for JPEG-family formats seed the
quality from the bytes-per-pixel table. -/
def ceilingStep (targetSizeBytes : ℚ) (format : String) (st : LoopState) : LoopState :=
  if st.width > 32767 ∨ st.height > 32767 then
    let aspect : ℚ := (st.width : ℚ) / (st.height : ℚ)
    let pre : ℤ × ℤ :=
      if st.width > st.height then (32767, round ((32767 : ℚ) / aspect))
      else (round ((32767 : ℚ) * aspect), 32767)
    let w : ℤ := min pre.1 32767
    let h : ℤ := min pre.2 32767
    let quality : ℕ :=
      if isJpeg format then
        let pixelCount : ℚ := (w : ℚ) * (h : ℚ)
        qualityForBytesPerPixel (targetSizeBytes / pixelCount)
      else st.quality
    { st with width := w, height := h, quality := quality }
  else st

open Classical in
/-- One iteration of the convergence loop body (source lines 363–441):
ceiling step, render, measure, tolerance check (`.inl` = break with the
accepted state), then either the quality adjustment (at-ceiling
JPEG-family regime) or the dimension adjustment (`.inr` = continue). -/
noncomputable def loopIter (render : ℤ → ℤ → ℕ → List ℕ)
    (targetSizeBytes tolerance : ℚ) (format : String)
    (st : LoopState) : LoopState ⊕ LoopState :=
  let st1 := ceilingStep targetSizeBytes format st
  let buf := render st1.width st1.height st1.quality
  let actual := buf.length
  let st2 := { st1 with
    buffer := some buf
    actualSize := some actual
    renders := st1.renders ++ [(st1.width, st1.height, st1.quality)] }
  if isWithinTolerance (actual : ℚ) targetSizeBytes tolerance then
    .inl st2
  else if (st2.width ≥ 32767 ∨ st2.height ≥ 32767) ∧ isJpeg format = true then
    .inr { st2 with
      quality :=
        if (actual : ℚ) < targetSizeBytes then min 100 (st2.quality + 5)
        else max 10 (st2.quality - 5) }
  else
    let nd := adjustDimensions (actual : ℚ) targetSizeBytes st2.width st2.height
    .inr { st2 with width := nd.1, height := nd.2 }

/-- The `while (iteration < maxIterations)` loop: a `break` (`.inl`) leaves
the iteration counter unchanged, a completed iteration (`.inr`) increments
it, exactly as in the source. Returns the final counter and state. -/
noncomputable def go (render : ℤ → ℤ → ℕ → List ℕ)
    (targetSizeBytes tolerance : ℚ) (format : String)
    (maxIterations : ℕ) (iteration : ℕ) (st : LoopState) : ℕ × LoopState :=
  if _h : iteration < maxIterations then
    match loopIter render targetSizeBytes tolerance format st with
    | .inl stop => (iteration, stop)
    | .inr next => go render targetSizeBytes tolerance format maxIterations (iteration + 1) next
  else (iteration, st)
termination_by maxIterations - iteration

/-- `GenerationConfig`: the configuration record destructured by
`generateImageWithTargetSize`, with the source's default values. -/
structure GenerationConfig where
  targetSizeMB : ℚ
  format : String
  maxIterations : ℕ := 20
  tolerance : ℚ := 5/100

/-- The two validation failures raised before any rendering. -/
inductive GenError where
  | invalidTarget : GenError
  | unsupportedFormat : GenError
deriving DecidableEq

/-- `GenerationOutcome`: the object returned by
`generateImageWithTargetSize`, plus the instrumented render trace and the
non-convergence warning flag (the `console.warn` side channel). -/
structure Outcome where
  buffer : Option (List ℕ)
  width : ℤ
  height : ℤ
  actualSizeBytes : Option ℕ
  actualSizeMB : Option ℚ
  targetSizeMB : ℚ
  iterations : ℕ
  format : String
  quality : Option ℕ
  renders : List (ℤ × ℤ × ℕ)
  warnedNonConvergence : Bool

open Classical in
/-- `ImageGenerator.generateImageWithTargetSize`: validate, estimate seed
dimensions, run the convergence loop, and assemble the outcome
(`iterations = iteration + 1`, `quality` present only for jpg/jpeg). -/
noncomputable def generateImageWithTargetSize (render : ℤ → ℤ → ℕ → List ℕ)
    (config : GenerationConfig) : Except GenError Outcome :=
  if config.targetSizeMB ≤ 0 then
    .error .invalidTarget
  else if ¬ (isFormatSupported config.format = true) then
    .error .unsupportedFormat
  else
    let targetSizeBytes := mbToBytes config.targetSizeMB
    let seed := estimateInitialDimensions targetSizeBytes config.format
    let result := go render targetSizeBytes config.tolerance config.format
      config.maxIterations 0
      { width := seed.1, height := seed.2, quality := 90 }
    let finalIter := result.1
    let st := result.2
    .ok {
      buffer := st.buffer
      width := st.width
      height := st.height
      actualSizeBytes := st.actualSize
      actualSizeMB := st.actualSize.map (fun a => bytesToMB (a : ℚ))
      targetSizeMB := config.targetSizeMB
      iterations := finalIter + 1
      format := config.format
      quality := if isJpeg config.format then some st.quality else none
      renders := st.renders
      warnedNonConvergence := decide (finalIter ≥ config.maxIterations) }

open Classical in
/-- Reference estimator following the specification's words (for the C5
refinement claim): per-format factor, `estimatedPixels = targetSizeBytes / factor`,
16:9 solve, and on overflow both dimensions rescaled proportionally so the
larger equals the 32767 ceiling, then each independently clamped to the
ceiling, rounded, and floored at 100×56. -/
noncomputable def estimateRef (targetSizeBytes : ℚ) (format : String) : ℤ × ℤ :=
  let factor : ℚ := compressionFactor format
  let p : ℝ := (targetSizeBytes : ℝ) / (factor : ℝ)
  let w : ℝ := Real.sqrt (p * (16 / 9))
  let h : ℝ := p / w
  let scaled : ℝ × ℝ :=
    if w > 32767 ∨ h > 32767 then
      let s : ℝ := 32767 / max w h
      (min (w * s) 32767, min (h * s) 32767)
    else (w, h)
  (max (round scaled.1) 100, max (round scaled.2) 56)

/-- Estimated pixel count of the estimator: `targetSizeBytes / factor`. -/
noncomputable def estPix (targetSizeBytes : ℚ) (format : String) : ℝ :=
  (targetSizeBytes : ℝ) / ((compressionFactor format : ℚ) : ℝ)

/-- Pre-clamp width of the estimator: `sqrt(estimatedPixels * 16/9)`. -/
noncomputable def wEst (targetSizeBytes : ℚ) (format : String) : ℝ :=
  Real.sqrt (estPix targetSizeBytes format * (16 / 9))

/-- Pre-clamp height of the estimator: `estimatedPixels / width`. -/
noncomputable def hEst (targetSizeBytes : ℚ) (format : String) : ℝ :=
  estPix targetSizeBytes format / wEst targetSizeBytes format

/-- Dimension invariant maintained at the top of every loop iteration:
both dimensions are at least 50 and the aspect ratio is bounded on both
sides by `65534/99` (that is, `32767/49.5`), which is exactly what the
ceiling rescale needs in order to keep the rescaled short side at or
above the 50 floor. -/
def dimInv (w h : ℤ) : Prop :=
  50 ≤ w ∧ 50 ≤ h ∧ 99 * w ≤ 65534 * h ∧ 99 * h ≤ 65534 * w

/-- C1: in the normal dimension regime, the next dimensions are computed by
area-proportional scaling: `scaleFactor = sqrt(targetSizeBytes / actualSizeBytes)`,
`newWidth = round(width * scaleFactor)`, `newHeight = round(height * scaleFactor)`,
each floored at 50, for every positive `actualSizeBytes` and `targetSizeBytes`
and every current width and height. -/
theorem claim1_adjustDimensions_formula (a t : ℚ) (w h : ℤ)
    (ha : 0 < a) (ht : 0 < t) :
    adjustDimensions a t w h =
      (max (round ((w : ℝ) * Real.sqrt ((t : ℝ) / (a : ℝ)))) 50,
       max (round ((h : ℝ) * Real.sqrt ((t : ℝ) / (a : ℝ)))) 50) :=
  rfl

/-- C1 witness: at `actualSizeBytes = targetSizeBytes = 884736` the scale
factor is `sqrt 1 = 1` and `(60, 40)` is adjusted to `(60, 50)` (the height
hits the 50 floor). -/
theorem claim1_witness :
    (0 : ℚ) < 884736 ∧ (0 : ℚ) < 884736 ∧
    adjustDimensions 884736 884736 60 40 = (60, 50) := by
  refine ⟨by norm_num, by norm_num, ?_⟩
  rw [claim1_adjustDimensions_formula 884736 884736 60 40 (by norm_num) (by norm_num)]
  rw [show ((884736 : ℚ) : ℝ) / ((884736 : ℚ) : ℝ) = 1 by norm_num]
  rw [Real.sqrt_one]
  norm_num

/-- C2: the tolerance acceptance test is the strict inequality
`|actualSizeBytes - targetSizeBytes| < targetSizeBytes * tolerance`:
an actual size of exactly `targetSizeBytes * (1 + tolerance)` is rejected,
any size strictly inside the band is accepted, and an exact match is
always accepted. -/
theorem claim2_tolerance_boundary (t tol : ℚ) (ht : 0 < t)
    (h0 : 0 < tol) (h1 : tol < 1) :
    ¬ isWithinTolerance (t * (1 + tol)) t tol
    ∧ (∀ a : ℚ, |a - t| < t * tol → isWithinTolerance a t tol)
    ∧ isWithinTolerance t t tol := by
  refine ⟨?_, fun a hlt => hlt, ?_⟩
  · unfold isWithinTolerance
    rw [show t * (1 + tol) - t = t * tol by ring]
    rw [abs_of_nonneg (by positivity)]
    exact lt_irrefl _
  · unfold isWithinTolerance
    rw [sub_self, abs_zero]
    positivity

/-- C2 witness: with `targetSizeBytes = 100` and `tolerance = 1/20`, an
actual size of 105 is rejected, anything strictly within 5 bytes accepted,
and 100 itself accepted. -/
theorem claim2_witness :
    (0 : ℚ) < 100 ∧ (0 : ℚ) < 1/20 ∧ (1/20 : ℚ) < 1
    ∧ (¬ isWithinTolerance (100 * (1 + 1/20)) 100 (1/20)
       ∧ (∀ a : ℚ, |a - 100| < 100 * (1/20) → isWithinTolerance a 100 (1/20))
       ∧ isWithinTolerance 100 100 (1/20)) :=
  ⟨by norm_num, by norm_num, by norm_num,
   claim2_tolerance_boundary 100 (1/20) (by norm_num) (by norm_num) (by norm_num)⟩

/-- C3: a non-positive `targetSizeMB` raises the invalid-target error and an
unsupported format raises the unsupported-format error, in both cases for
every renderer — the result is a constant error independent of the rendering
collaborator, so no render is ever attempted and no partial result exists. -/
theorem claim3_validation_before_render :
    (∀ (render : ℤ → ℤ → ℕ → List ℕ) (config : GenerationConfig),
       config.targetSizeMB ≤ 0 →
       generateImageWithTargetSize render config = .error .invalidTarget)
    ∧ (∀ (render : ℤ → ℤ → ℕ → List ℕ) (config : GenerationConfig),
       isFormatSupported config.format = false →
       0 < config.targetSizeMB →
       generateImageWithTargetSize render config = .error .unsupportedFormat) := by
  constructor
  · intro render config hle
    unfold generateImageWithTargetSize
    rw [if_pos hle]
  · intro render config hf hpos
    unfold generateImageWithTargetSize
    rw [if_neg (not_le.mpr hpos), if_pos (by simp [hf])]

/-- C3 witness: `targetSizeMB = 0` with format `jpg` yields the
invalid-target error, and `targetSizeMB = 1` with format `gif` yields the
unsupported-format error, for a concrete renderer. -/
theorem claim3_witness :
    ({ targetSizeMB := 0, format := "jpg" } : GenerationConfig).targetSizeMB ≤ 0
    ∧ generateImageWithTargetSize (fun _ _ _ => [])
        { targetSizeMB := 0, format := "jpg" } = .error .invalidTarget
    ∧ isFormatSupported "gif" = false
    ∧ (0 : ℚ) < ({ targetSizeMB := 1, format := "gif" } : GenerationConfig).targetSizeMB
    ∧ generateImageWithTargetSize (fun _ _ _ => [])
        { targetSizeMB := 1, format := "gif" } = .error .unsupportedFormat :=
  ⟨by norm_num, claim3_validation_before_render.1 _ _ (by norm_num),
   by decide, by norm_num,
   claim3_validation_before_render.2 _ _ (by decide) (by norm_num)⟩

section RoundFacts

variable {α : Type*} [LinearOrderedField α] [FloorRing α]

theorem round_mono_le {x y : α} (hxy : x ≤ y) : round x ≤ round y := by
  rw [round_eq, round_eq]
  exact Int.floor_mono (by linarith)

theorem round_le_of_lt_half {x : α} {n : ℤ} (hx : x < (n : α) + 1/2) : round x ≤ n := by
  rw [round_eq]
  have hfl : ⌊x + 1/2⌋ < n + 1 := Int.floor_lt.mpr (by push_cast; linarith)
  omega

theorem le_round_of_half_le {x : α} {n : ℤ} (hx : (n : α) - 1/2 ≤ x) : n ≤ round x := by
  rw [round_eq]
  exact Int.le_floor.mpr (by push_cast; linarith)

theorem round_lt_half_add {x : α} : x - 1/2 < ((round x : ℤ) : α) := by
  rw [round_eq]
  have hfl := Int.sub_one_lt_floor (x + 1/2)
  push_cast at hfl
  linarith

end RoundFacts

theorem lowerStr_jpg : lowerStr "jpg" = "jpg" := by decide

theorem lowerStr_jpeg : lowerStr "jpeg" = "jpeg" := by decide

theorem lowerStr_png : lowerStr "png" = "png" := by decide

theorem compressionFactor_jpg : compressionFactor "jpg" = 3/2 := by
  simp [compressionFactor, lowerStr_jpg]

theorem compressionFactor_png : compressionFactor "png" = 6/5 := by
  simp [compressionFactor, lowerStr_png]

theorem compressionFactor_pos (f : String) : 0 < compressionFactor f := by
  unfold compressionFactor
  split_ifs <;> norm_num

theorem estPix_pos (t : ℚ) (f : String) (ht : 0 < t) : 0 < estPix t f := by
  unfold estPix
  exact div_pos (by exact_mod_cast ht) (by exact_mod_cast compressionFactor_pos f)

theorem wEst_pos (t : ℚ) (f : String) (ht : 0 < t) : 0 < wEst t f := by
  unfold wEst
  exact Real.sqrt_pos.mpr (by have := estPix_pos t f ht; positivity)

theorem wEst_sq (t : ℚ) (f : String) (ht : 0 < t) :
    wEst t f ^ 2 = estPix t f * (16/9) := by
  unfold wEst
  exact Real.sq_sqrt (by have := estPix_pos t f ht; positivity)

theorem hEst_eq (t : ℚ) (f : String) (ht : 0 < t) :
    hEst t f = (9/16) * wEst t f := by
  have hw := wEst_pos t f ht
  have hpe : estPix t f = wEst t f ^ 2 * (9/16) := by
    rw [wEst_sq t f ht]; ring
  unfold hEst
  rw [hpe]
  field_simp
  ring

theorem hEst_lt_wEst (t : ℚ) (f : String) (ht : 0 < t) : hEst t f < wEst t f := by
  have hw := wEst_pos t f ht
  rw [hEst_eq t f ht]
  linarith

theorem hEst_pos (t : ℚ) (f : String) (ht : 0 < t) : 0 < hEst t f := by
  have hw := wEst_pos t f ht
  rw [hEst_eq t f ht]
  positivity

theorem hEst_sqrt (t : ℚ) (f : String) (ht : 0 < t) :
    hEst t f = Real.sqrt (estPix t f * (9/16)) := by
  have hp := estPix_pos t f ht
  rw [hEst_eq t f ht]
  rw [show estPix t f * (9/16) = (estPix t f * (16/9)) * ((9/16)^2) by ring]
  rw [Real.sqrt_mul (by positivity) ((9/16)^2)]
  rw [Real.sqrt_sq (by norm_num : (0:ℝ) ≤ 9/16)]
  unfold wEst
  ring

theorem round_ceilHeight : round ((32767 : ℝ) / (16/9)) = 18431 := by
  rw [show (32767:ℝ)/(16/9) = ((294903/16 : ℚ) : ℝ) by norm_num]
  rw [Rat.round_cast]
  norm_num [round_eq]

/-- The estimator, characterised: for positive targets the inner 16:9
geometry gives pre-clamp width strictly above pre-clamp height, so the
overflow branch collapses to the constant pair `(32767, 18431)` and the
normal branch to rounding and flooring of the pre-clamp dimensions. -/
theorem estimate_characterization (t : ℚ) (f : String) (ht : 0 < t) :
    estimateInitialDimensions t f =
      if 32767 < wEst t f then ((32767 : ℤ), (18431 : ℤ))
      else (max (round (wEst t f)) 100, max (round (hEst t f)) 56) := by
  have hlt := hEst_lt_wEst t f ht
  have hh0 := hEst_pos t f ht
  simp only [estimateInitialDimensions, wEst, hEst, estPix] at hlt hh0 ⊢
  by_cases hc : (32767:ℝ) < Real.sqrt ((t:ℝ) / ((compressionFactor f : ℚ):ℝ) * (16/9))
  · rw [if_pos (Or.inl hc), if_pos hc, if_pos hlt]
    have h1 : min (32767:ℝ) 32767 = 32767 := min_self _
    have h2 : min ((32767:ℝ)/(16/9)) 32767 = (32767:ℝ)/(16/9) :=
      min_eq_left (by norm_num)
    rw [h1, h2, round_ceilHeight]
    rw [show round ((32767:ℝ)) = (32767:ℤ) from by
      rw [show (32767:ℝ) = ((32767:ℤ):ℝ) by norm_num, round_intCast]]
    rw [max_eq_left (by norm_num : (100:ℤ) ≤ 32767)]
    rw [max_eq_left (by norm_num : (56:ℤ) ≤ 18431)]
  · rw [if_neg hc]
    rw [if_neg ?side]
    case side =>
      push_neg
      exact ⟨not_lt.mp hc, le_trans (le_of_lt hlt) (not_lt.mp hc)⟩

/-- Both estimator outputs stay at or below the 32767 pixel ceiling. -/
theorem estimate_le_ceiling (t : ℚ) (f : String) (ht : 0 < t) :
    (estimateInitialDimensions t f).1 ≤ 32767
    ∧ (estimateInitialDimensions t f).2 ≤ 32767 := by
  rw [estimate_characterization t f ht]
  by_cases hc : 32767 < wEst t f
  · rw [if_pos hc]
    constructor <;> norm_num
  · rw [if_neg hc]
    have hwle : round (wEst t f) ≤ 32767 := by
      have : round (wEst t f) ≤ round ((32767:ℝ)) := round_mono_le (not_lt.mp hc)
      rwa [show round ((32767:ℝ)) = (32767:ℤ) from by
        rw [show (32767:ℝ) = ((32767:ℤ):ℝ) by norm_num, round_intCast]] at this
    have hhle : round (hEst t f) ≤ 32767 := by
      have h1 : round (hEst t f) ≤ round (wEst t f) :=
        round_mono_le (le_of_lt (hEst_lt_wEst t f ht))
      omega
    exact ⟨max_le hwle (by norm_num), max_le hhle (by norm_num)⟩

/-- Both estimator outputs respect the 100×56 floor. -/
theorem estimate_ge_floor (t : ℚ) (f : String) :
    100 ≤ (estimateInitialDimensions t f).1
    ∧ 56 ≤ (estimateInitialDimensions t f).2 := by
  unfold estimateInitialDimensions
  exact ⟨le_max_right _ _, le_max_right _ _⟩

theorem round_real_ofNat_32767 : round ((32767:ℝ)) = (32767:ℤ) := by
  rw [show (32767:ℝ) = ((32767:ℤ):ℝ) by norm_num, round_intCast]

theorem wEst_884736_jpg : wEst 884736 "jpg" = 1024 := by
  unfold wEst estPix
  rw [compressionFactor_jpg]
  rw [show ((884736:ℚ):ℝ) / (((3/2 : ℚ)):ℝ) * (16/9) = 1024^2 by push_cast; norm_num]
  exact Real.sqrt_sq (by norm_num)

theorem hEst_884736_jpg : hEst 884736 "jpg" = 576 := by
  unfold hEst
  rw [wEst_884736_jpg]
  unfold estPix
  rw [compressionFactor_jpg]
  push_cast
  norm_num

theorem est_884736_jpg : estimateInitialDimensions 884736 "jpg" = (1024, 576) := by
  rw [estimate_characterization 884736 "jpg" (by norm_num)]
  rw [wEst_884736_jpg, hEst_884736_jpg]
  rw [if_neg (by norm_num)]
  rw [show round ((1024:ℝ)) = (1024:ℤ) from by
    rw [show (1024:ℝ) = ((1024:ℤ):ℝ) by norm_num, round_intCast]]
  rw [show round ((576:ℝ)) = (576:ℤ) from by
    rw [show (576:ℝ) = ((576:ℤ):ℝ) by norm_num, round_intCast]]
  rw [max_eq_left (by norm_num : (100:ℤ) ≤ 1024)]
  rw [max_eq_left (by norm_num : (56:ℤ) ≤ 576)]

theorem wEst_big_jpg : (32767:ℝ) < wEst 1073741824 "jpg" := by
  unfold wEst estPix
  rw [compressionFactor_jpg]
  rw [Real.lt_sqrt (by norm_num)]
  push_cast
  norm_num

theorem est_big_jpg : estimateInitialDimensions 1073741824 "jpg" = (32767, 18431) := by
  rw [estimate_characterization 1073741824 "jpg" (by norm_num)]
  rw [if_pos wEst_big_jpg]

theorem wEst_1_jpg_le : wEst 1 "jpg" ≤ 2 := by
  unfold wEst estPix
  rw [compressionFactor_jpg]
  rw [Real.sqrt_le_iff]
  constructor
  · norm_num
  · push_cast
    norm_num

theorem wEst_1_png_le : wEst 1 "png" ≤ 2 := by
  unfold wEst estPix
  rw [compressionFactor_png]
  rw [Real.sqrt_le_iff]
  constructor
  · norm_num
  · push_cast
    norm_num

theorem round_two_real : round ((2:ℝ)) = (2:ℤ) := by
  rw [show (2:ℝ) = ((2:ℤ):ℝ) by norm_num, round_intCast]

theorem est_1_jpg : estimateInitialDimensions 1 "jpg" = (100, 56) := by
  rw [estimate_characterization 1 "jpg" one_pos]
  have hwr : round (wEst 1 "jpg") ≤ 2 := by
    have := round_mono_le wEst_1_jpg_le
    rwa [round_two_real] at this
  have hhr : round (hEst 1 "jpg") ≤ 2 := by
    have h1 : round (hEst 1 "jpg") ≤ round (wEst 1 "jpg") :=
      round_mono_le (le_of_lt (hEst_lt_wEst 1 "jpg" one_pos))
    omega
  rw [if_neg (not_lt.mpr (le_trans wEst_1_jpg_le (by norm_num)))]
  rw [max_eq_right (by omega : round (wEst 1 "jpg") ≤ 100)]
  rw [max_eq_right (by omega : round (hEst 1 "jpg") ≤ 56)]

theorem est_1_png : estimateInitialDimensions 1 "png" = (100, 56) := by
  rw [estimate_characterization 1 "png" one_pos]
  have hwr : round (wEst 1 "png") ≤ 2 := by
    have := round_mono_le wEst_1_png_le
    rwa [round_two_real] at this
  have hhr : round (hEst 1 "png") ≤ 2 := by
    have h1 : round (hEst 1 "png") ≤ round (wEst 1 "png") :=
      round_mono_le (le_of_lt (hEst_lt_wEst 1 "png" one_pos))
    omega
  rw [if_neg (not_lt.mpr (le_trans wEst_1_png_le (by norm_num)))]
  rw [max_eq_right (by omega : round (wEst 1 "png") ≤ 100)]
  rw [max_eq_right (by omega : round (hEst 1 "png") ≤ 56)]

/-- The reference estimator admits the same characterisation as the code's
estimator. -/
theorem estimateRef_characterization (t : ℚ) (f : String) (ht : 0 < t) :
    estimateRef t f =
      if 32767 < wEst t f then ((32767 : ℤ), (18431 : ℤ))
      else (max (round (wEst t f)) 100, max (round (hEst t f)) 56) := by
  have hlt := hEst_lt_wEst t f ht
  have hw0 := wEst_pos t f ht
  have hp0 := estPix_pos t f ht
  have hsq := wEst_sq t f ht
  simp only [estimateRef, wEst, hEst, estPix] at hlt hw0 hp0 hsq ⊢
  by_cases hc : (32767:ℝ) < Real.sqrt ((t:ℝ) / ((compressionFactor f : ℚ):ℝ) * (16/9))
  · rw [if_pos (Or.inl hc), if_pos hc]
    set p : ℝ := ((t:ℚ):ℝ) / ((compressionFactor f : ℚ):ℝ) with hpdef
    set w : ℝ := Real.sqrt (p * (16/9)) with hwdef
    rw [max_eq_left (le_of_lt hlt)]
    have hws : w * (32767 / w) = 32767 := by field_simp
    have hhs : p / w * (32767 / w) = (32767:ℝ) / (16/9) := by
      rw [div_mul_div_comm, ← sq, hsq]
      rw [show p * 32767 = (16/9) * ((9/16) * (p * 32767)) by ring,
          show p * (16/9) = (16/9) * p by ring]
      rw [mul_div_mul_left _ _ (by norm_num : (16/9 : ℝ) ≠ 0)]
      rw [eq_div_iff (by norm_num : (16/9 : ℝ) ≠ 0)]
      field_simp
      ring
    rw [hws, hhs]
    have h1 : min (32767:ℝ) 32767 = 32767 := min_self _
    have h2 : min ((32767:ℝ)/(16/9)) 32767 = (32767:ℝ)/(16/9) :=
      min_eq_left (by norm_num)
    rw [h1, h2, round_ceilHeight]
    rw [show round ((32767:ℝ)) = (32767:ℤ) from by
      rw [show (32767:ℝ) = ((32767:ℤ):ℝ) by norm_num, round_intCast]]
    rw [max_eq_left (by norm_num : (100:ℤ) ≤ 32767)]
    rw [max_eq_left (by norm_num : (56:ℤ) ≤ 18431)]
  · rw [if_neg hc]
    rw [if_neg ?side]
    case side =>
      push_neg
      exact ⟨not_lt.mp hc, le_trans (le_of_lt hlt) (not_lt.mp hc)⟩

/-- C5: for every positive target byte count and every format string, the
code's dimension estimator coincides with the reference definition written
from the specification's wording (factor table, 16:9 solve, proportional
rescale to the ceiling with independent clamping, rounding, 100×56 floor). -/
theorem claim5_estimator_matches_reference (t : ℚ) (f : String) (ht : 0 < t) :
    estimateInitialDimensions t f = estimateRef t f := by
  rw [estimate_characterization t f ht, estimateRef_characterization t f ht]

/-- C5 witness: the two estimators agree at the concrete input
`targetSizeBytes = 884736`, format `jpg`. -/
theorem claim5_witness :
    (0:ℚ) < 884736
    ∧ estimateInitialDimensions 884736 "jpg" = estimateRef 884736 "jpg" :=
  ⟨by norm_num, claim5_estimator_matches_reference 884736 "jpg" (by norm_num)⟩

/-- C9 counterexample: at `targetSizeBytes = 1` both the png and the jpg
estimates collapse to the 100×56 floor, so the png pixel area is not
strictly larger than the jpg pixel area — refuting the claim's universal
strict inequality for every positive target. -/
theorem claim9_counterexample :
    ¬ ((estimateInitialDimensions 1 "png").1 * (estimateInitialDimensions 1 "png").2
       > (estimateInitialDimensions 1 "jpg").1 * (estimateInitialDimensions 1 "jpg").2) := by
  rw [est_1_png, est_1_jpg]
  norm_num

/-- C9 (amended): for every positive target byte count, the png estimate's
pixel area is at least the jpg estimate's pixel area (the factors 1.2 versus
1.5 give png at least as many pixels); strictness fails exactly where the
100×56 floor or the 32767 ceiling clamps both formats to the same canvas. -/
theorem claim9_png_area_ge_jpg_area (t : ℚ) (ht : 0 < t) :
    (estimateInitialDimensions t "jpg").1 * (estimateInitialDimensions t "jpg").2
      ≤ (estimateInitialDimensions t "png").1 * (estimateInitialDimensions t "png").2 := by
  have hpj := estPix_pos t "jpg" ht
  have hpp := estPix_pos t "png" ht
  have hple : estPix t "jpg" ≤ estPix t "png" := by
    unfold estPix
    rw [compressionFactor_jpg, compressionFactor_png]
    push_cast
    have ht' : (0:ℝ) < (t:ℝ) := by exact_mod_cast ht
    rw [div_le_div_iff (by norm_num) (by norm_num)]
    nlinarith
  have hwle : wEst t "jpg" ≤ wEst t "png" := by
    unfold wEst
    exact Real.sqrt_le_sqrt (by nlinarith)
  have hhle : hEst t "jpg" ≤ hEst t "png" := by
    rw [hEst_sqrt t "jpg" ht, hEst_sqrt t "png" ht]
    exact Real.sqrt_le_sqrt (by nlinarith)
  rw [estimate_characterization t "jpg" ht, estimate_characterization t "png" ht]
  by_cases hcp : 32767 < wEst t "png"
  · rw [if_pos hcp]
    by_cases hcj : 32767 < wEst t "jpg"
    · rw [if_pos hcj]
    · rw [if_neg hcj]
      push_neg at hcj
      have h1 : max (round (wEst t "jpg")) 100 ≤ 32767 := by
        apply max_le _ (by norm_num)
        have hr := round_mono_le hcj
        rwa [round_real_ofNat_32767] at hr
      have h2 : max (round (hEst t "jpg")) 56 ≤ 18431 := by
        apply max_le _ (by norm_num)
        apply round_le_of_lt_half
        rw [hEst_eq t "jpg" ht]
        push_cast
        nlinarith
      have h3 : (0:ℤ) ≤ max (round (hEst t "jpg")) 56 :=
        le_trans (by norm_num) (le_max_right _ _)
      exact mul_le_mul h1 h2 h3 (by norm_num)
  · rw [if_neg hcp]
    have hcj : ¬ 32767 < wEst t "jpg" := fun hlt => hcp (lt_of_lt_of_le hlt hwle)
    rw [if_neg hcj]
    have w1 : max (round (wEst t "jpg")) 100 ≤ max (round (wEst t "png")) 100 :=
      max_le_max (round_mono_le hwle) le_rfl
    have h1 : max (round (hEst t "jpg")) 56 ≤ max (round (hEst t "png")) 56 :=
      max_le_max (round_mono_le hhle) le_rfl
    have h3 : (0:ℤ) ≤ max (round (hEst t "jpg")) 56 :=
      le_trans (by norm_num) (le_max_right _ _)
    have h4 : (0:ℤ) ≤ max (round (wEst t "png")) 100 :=
      le_trans (by norm_num) (le_max_right _ _)
    exact mul_le_mul w1 h1 h3 h4

/-- C9 witness: at the 1 MB target (1048576 bytes) the amended inequality is
instantiated. -/
theorem claim9_witness :
    (0:ℚ) < 1048576
    ∧ (estimateInitialDimensions 1048576 "jpg").1 * (estimateInitialDimensions 1048576 "jpg").2
        ≤ (estimateInitialDimensions 1048576 "png").1 * (estimateInitialDimensions 1048576 "png").2 :=
  ⟨by norm_num, claim9_png_area_ge_jpg_area 1048576 (by norm_num)⟩

theorem ceilingStep_of_le (t : ℚ) (f : String) (st : LoopState)
    (hw : st.width ≤ 32767) (hh : st.height ≤ 32767) :
    ceilingStep t f st = st := by
  unfold ceilingStep
  rw [if_neg]
  push_neg
  exact ⟨hw, hh⟩

theorem ceilingStep_over (t : ℚ) (f : String) (st : LoopState)
    (hover : st.width > 32767 ∨ st.height > 32767) :
    ceilingStep t f st =
      (let pre : ℤ × ℤ :=
        if st.width > st.height then
          (32767, round ((32767 : ℚ) / ((st.width : ℚ) / (st.height : ℚ))))
        else (round ((32767 : ℚ) * ((st.width : ℚ) / (st.height : ℚ))), 32767)
       let w : ℤ := min pre.1 32767
       let h : ℤ := min pre.2 32767
       { st with
         width := w
         height := h
         quality :=
           if isJpeg f then qualityForBytesPerPixel (t / ((w : ℚ) * (h : ℚ)))
           else st.quality }) := by
  unfold ceilingStep
  rw [if_pos hover]

theorem go_unfold (render : ℤ → ℤ → ℕ → List ℕ) (t tol : ℚ) (f : String)
    (maxIter iter : ℕ) (st : LoopState) :
    go render t tol f maxIter iter st =
      if _h : iter < maxIter then
        match loopIter render t tol f st with
        | .inl stop => (iter, stop)
        | .inr next => go render t tol f maxIter (iter + 1) next
      else (iter, st) := by
  rw [go]

theorem go_accept {render : ℤ → ℤ → ℕ → List ℕ} {t tol : ℚ} {f : String}
    {maxIter iter : ℕ} {st stop : LoopState}
    (hiter : iter < maxIter)
    (hstep : loopIter render t tol f st = .inl stop) :
    go render t tol f maxIter iter st = (iter, stop) := by
  rw [go_unfold, dif_pos hiter, hstep]

theorem go_continue {render : ℤ → ℤ → ℕ → List ℕ} {t tol : ℚ} {f : String}
    {maxIter iter : ℕ} {st next : LoopState}
    (hiter : iter < maxIter)
    (hstep : loopIter render t tol f st = .inr next) :
    go render t tol f maxIter iter st = go render t tol f maxIter (iter + 1) next := by
  rw [go_unfold, dif_pos hiter, hstep]

theorem go_stop {render : ℤ → ℤ → ℕ → List ℕ} {t tol : ℚ} {f : String}
    {maxIter iter : ℕ} {st : LoopState}
    (hiter : ¬ iter < maxIter) :
    go render t tol f maxIter iter st = (iter, st) := by
  rw [go_unfold, dif_neg hiter]

theorem generate_eq_ok (render : ℤ → ℤ → ℕ → List ℕ) (config : GenerationConfig)
    (hpos : 0 < config.targetSizeMB)
    (hfmt : isFormatSupported config.format = true) :
    generateImageWithTargetSize render config =
      (let targetSizeBytes := mbToBytes config.targetSizeMB
       let seed := estimateInitialDimensions targetSizeBytes config.format
       let result := go render targetSizeBytes config.tolerance config.format
         config.maxIterations 0 { width := seed.1, height := seed.2, quality := 90 }
       .ok {
         buffer := result.2.buffer
         width := result.2.width
         height := result.2.height
         actualSizeBytes := result.2.actualSize
         actualSizeMB := result.2.actualSize.map (fun a => bytesToMB (a : ℚ))
         targetSizeMB := config.targetSizeMB
         iterations := result.1 + 1
         format := config.format
         quality := if isJpeg config.format then some result.2.quality else none
         renders := result.2.renders
         warnedNonConvergence := decide (result.1 ≥ config.maxIterations) }) := by
  unfold generateImageWithTargetSize
  rw [if_neg (not_le.mpr hpos), if_neg (by simp [hfmt])]

theorem loopIter_no_ceiling (render : ℤ → ℤ → ℕ → List ℕ) (t tol : ℚ) (f : String)
    (st : LoopState) (hw : st.width ≤ 32767) (hh : st.height ≤ 32767) :
    loopIter render t tol f st =
      (let buf := render st.width st.height st.quality
       let st2 := { st with
         buffer := some buf
         actualSize := some buf.length
         renders := st.renders ++ [(st.width, st.height, st.quality)] }
       if isWithinTolerance (buf.length : ℚ) t tol then .inl st2
       else if (st2.width ≥ 32767 ∨ st2.height ≥ 32767) ∧ isJpeg f = true then
         .inr { st2 with
           quality :=
             if (buf.length : ℚ) < t then min 100 (st2.quality + 5)
             else max 10 (st2.quality - 5) }
       else
         .inr { st2 with
           width := (adjustDimensions (buf.length : ℚ) t st2.width st2.height).1
           height := (adjustDimensions (buf.length : ℚ) t st2.width st2.height).2 }) := by
  unfold loopIter
  rw [ceilingStep_of_le t f st hw hh]

/-- C8 counterexample: for a 1024 MB jpg target the estimator's seed
dimensions reach the ceiling exactly (32767×18431, never exceeding it), the
loop's strict `>` ceiling check does not fire, and the first render uses the
initial quality 90 — not the step-table value 95 that
`bytesPerPixel = targetSizeBytes/(32767*18431) ≈ 1.78` would dictate. -/
theorem claim8_counterexample :
    (generateImageWithTargetSize (fun _ _ _ => [0])
        { targetSizeMB := 1024, format := "jpg", maxIterations := 1 }).toOption.map
        Outcome.renders
      = some [(32767, 18431, 90)]
    ∧ qualityForBytesPerPixel (mbToBytes 1024 / ((32767 : ℚ) * 18431)) = 95 := by
  constructor
  · have hmb : mbToBytes 1024 = 1073741824 := by norm_num [mbToBytes]
    have htolneg : ¬ isWithinTolerance ((([(0:ℕ)]).length : ℕ) : ℚ) 1073741824 (5/100) := by
      simp only [List.length_cons, List.length_nil]
      unfold isWithinTolerance
      push_cast
      norm_num
    have hstep : loopIter (fun _ _ _ => [0]) 1073741824 (5/100) "jpg"
        { width := 32767, height := 18431, quality := 90 }
        = .inr { width := 32767, height := 18431, quality := 95,
                 buffer := some [0],
                 actualSize := some 1,
                 renders := [(32767, 18431, 90)] } := by
      rw [loopIter_no_ceiling _ _ _ _ _ (by norm_num) (by norm_num)]
      simp only []
      rw [if_neg htolneg]
      rw [if_pos ⟨Or.inl (by norm_num), by decide⟩]
      simp
    have hgo : go (fun _ _ _ => [0]) 1073741824 (5/100) "jpg" 1 0
        { width := 32767, height := 18431, quality := 90 }
        = (1, { width := 32767, height := 18431, quality := 95,
                buffer := some [0],
                actualSize := some 1,
                renders := [(32767, 18431, 90)] }) := by
      rw [go_continue (by norm_num) hstep]
      exact go_stop (by norm_num)
    rw [generate_eq_ok _ _ (by norm_num) (by decide)]
    simp only [hmb, est_big_jpg]
    rw [hgo]
    simp
    exact ⟨_, rfl, rfl⟩
  · have hmb : mbToBytes 1024 = 1073741824 := by norm_num [mbToBytes]
    rw [hmb]
    unfold qualityForBytesPerPixel
    rw [if_neg (by norm_num), if_pos (by norm_num)]

/-- C8 (amended): when the loop's dimensions strictly exceed the pixel
ceiling for a jpg/jpeg request, the ceiling step seeds quality from
`bytesPerPixel = targetSizeBytes/(width*height)` (computed on the clamped
dimensions) via the step table; but the estimator never emits dimensions
strictly above 32767 — it clamps to exactly the ceiling — and at or below
the ceiling the ceiling step leaves quality untouched, so seed dimensions
that merely reach the ceiling do not receive a table seed. -/
theorem claim8_quality_seeding :
    (∀ (t : ℚ) (f : String) (st : LoopState),
        isJpeg f = true →
        32767 < st.width ∨ 32767 < st.height →
        (ceilingStep t f st).quality
          = qualityForBytesPerPixel
              (t / (((ceilingStep t f st).width : ℚ) * ((ceilingStep t f st).height : ℚ))))
    ∧ (∀ t : ℚ, 0 < t →
        (estimateInitialDimensions t "jpg").1 ≤ 32767
        ∧ (estimateInitialDimensions t "jpg").2 ≤ 32767)
    ∧ (∀ (t : ℚ) (f : String) (st : LoopState),
        st.width ≤ 32767 → st.height ≤ 32767 →
        (ceilingStep t f st).quality = st.quality) := by
  refine ⟨?_, ?_, ?_⟩
  · intro t f st hj hover
    rw [ceilingStep_over t f st hover]
    simp [hj]
  · intro t ht
    exact estimate_le_ceiling t "jpg" ht
  · intro t f st hw hh
    rw [ceilingStep_of_le t f st hw hh]

/-- C8 witness: a 40000×22500 state strictly exceeds the ceiling, so for a
jpg request the clamped dimensions get a table-seeded quality. -/
theorem claim8_witness :
    isJpeg "jpg" = true
    ∧ (32767 < ({ width := 40000, height := 22500, quality := 90 } : LoopState).width
       ∨ 32767 < ({ width := 40000, height := 22500, quality := 90 } : LoopState).height)
    ∧ (ceilingStep 100000000 "jpg" { width := 40000, height := 22500, quality := 90 }).quality
        = qualityForBytesPerPixel
            (100000000 /
              (((ceilingStep 100000000 "jpg"
                  { width := 40000, height := 22500, quality := 90 }).width : ℚ)
                * ((ceilingStep 100000000 "jpg"
                  { width := 40000, height := 22500, quality := 90 }).height : ℚ))) :=
  ⟨by decide, Or.inl (by norm_num),
   claim8_quality_seeding.1 100000000 "jpg" _ (by decide) (Or.inl (by norm_num))⟩
/-- C4 counterexample: with `maxIterations = 1` and a renderer whose output
(1 byte) misses tolerance, the loop performs its single iteration, the
counter is incremented to 1, and the outcome reports
`iterations = iteration + 1 = 2` — not 1 as the claim states. -/
theorem claim4_counterexample :
    (generateImageWithTargetSize (fun _ _ _ => [0])
        { targetSizeMB := 27/32, format := "jpg", maxIterations := 1 }).toOption.map
        Outcome.iterations
      = some 2
    ∧ (2 : ℕ) ≠ 1 := by
  refine ⟨?_, by norm_num⟩
  have hmb : mbToBytes (27/32) = 884736 := by norm_num [mbToBytes]
  have htolneg : ¬ isWithinTolerance ((([(0:ℕ)]).length : ℕ) : ℚ) 884736 (5/100) := by
    simp only [List.length_cons, List.length_nil]
    unfold isWithinTolerance
    push_cast
    norm_num
  have hstep : loopIter (fun _ _ _ => [0]) 884736 (5/100) "jpg"
      { width := 1024, height := 576, quality := 90 }
      = .inr { width := (adjustDimensions ((([(0:ℕ)]).length : ℕ) : ℚ) 884736 1024 576).1,
               height := (adjustDimensions ((([(0:ℕ)]).length : ℕ) : ℚ) 884736 1024 576).2,
               quality := 90,
               buffer := some [0],
               actualSize := some 1,
               renders := [(1024, 576, 90)] } := by
    rw [loopIter_no_ceiling _ _ _ _ _ (by norm_num) (by norm_num)]
    simp only []
    rw [if_neg htolneg]
    rw [if_neg (by norm_num)]
    simp
  have hgo : go (fun _ _ _ => [0]) 884736 (5/100) "jpg" 1 0
      { width := 1024, height := 576, quality := 90 }
      = (1, { width := (adjustDimensions ((([(0:ℕ)]).length : ℕ) : ℚ) 884736 1024 576).1,
              height := (adjustDimensions ((([(0:ℕ)]).length : ℕ) : ℚ) 884736 1024 576).2,
              quality := 90,
              buffer := some [0],
              actualSize := some 1,
              renders := [(1024, 576, 90)] }) := by
    rw [go_continue (by norm_num) hstep]
    exact go_stop (by norm_num)
  rw [generate_eq_ok _ _ (by norm_num) (by decide)]
  simp only [hmb, est_884736_jpg]
  rw [hgo]
  simp
  exact ⟨_, rfl, rfl⟩

/-- C4 (amended): for a valid configuration with `maxIterations = 1`, the
loop terminates after exactly one render attempt regardless of convergence,
the rendered buffer and its measured size are returned without throwing,
and the outcome reports `iterations = 1` when that single render met
tolerance and `iterations = 2` (counter + 1 after exhaustion) when it did
not. -/
theorem claim4_single_iteration (render : ℤ → ℤ → ℕ → List ℕ)
    (config : GenerationConfig)
    (hpos : 0 < config.targetSizeMB)
    (hfmt : isFormatSupported config.format = true)
    (hone : config.maxIterations = 1) :
    ∃ o, generateImageWithTargetSize render config = .ok o
      ∧ o.renders =
          [((estimateInitialDimensions (mbToBytes config.targetSizeMB) config.format).1,
            (estimateInitialDimensions (mbToBytes config.targetSizeMB) config.format).2,
            90)]
      ∧ o.buffer = some (render
          (estimateInitialDimensions (mbToBytes config.targetSizeMB) config.format).1
          (estimateInitialDimensions (mbToBytes config.targetSizeMB) config.format).2 90)
      ∧ o.actualSizeBytes = some (render
          (estimateInitialDimensions (mbToBytes config.targetSizeMB) config.format).1
          (estimateInitialDimensions (mbToBytes config.targetSizeMB) config.format).2 90).length
      ∧ ((isWithinTolerance ((render
            (estimateInitialDimensions (mbToBytes config.targetSizeMB) config.format).1
            (estimateInitialDimensions (mbToBytes config.targetSizeMB) config.format).2 90).length : ℚ)
            (mbToBytes config.targetSizeMB) config.tolerance
          ∧ o.iterations = 1)
         ∨ (¬ isWithinTolerance ((render
            (estimateInitialDimensions (mbToBytes config.targetSizeMB) config.format).1
            (estimateInitialDimensions (mbToBytes config.targetSizeMB) config.format).2 90).length : ℚ)
            (mbToBytes config.targetSizeMB) config.tolerance
          ∧ o.iterations = 2)) := by
  have htb : 0 < mbToBytes config.targetSizeMB := by
    unfold mbToBytes
    exact mul_pos hpos (by norm_num)
  obtain ⟨hle1, hle2⟩ := estimate_le_ceiling (mbToBytes config.targetSizeMB) config.format htb
  have hstep := loopIter_no_ceiling render (mbToBytes config.targetSizeMB)
    config.tolerance config.format
    { width := (estimateInitialDimensions (mbToBytes config.targetSizeMB) config.format).1,
      height := (estimateInitialDimensions (mbToBytes config.targetSizeMB) config.format).2,
      quality := 90 } hle1 hle2
  have hmaxpos : 0 < config.maxIterations := by omega
  by_cases htol : isWithinTolerance ((render
      (estimateInitialDimensions (mbToBytes config.targetSizeMB) config.format).1
      (estimateInitialDimensions (mbToBytes config.targetSizeMB) config.format).2 90).length : ℚ)
      (mbToBytes config.targetSizeMB) config.tolerance
  · have hstep' : loopIter render (mbToBytes config.targetSizeMB)
        config.tolerance config.format
        { width := (estimateInitialDimensions (mbToBytes config.targetSizeMB) config.format).1,
          height := (estimateInitialDimensions (mbToBytes config.targetSizeMB) config.format).2,
          quality := 90 }
        = .inl { width := (estimateInitialDimensions (mbToBytes config.targetSizeMB) config.format).1,
                 height := (estimateInitialDimensions (mbToBytes config.targetSizeMB) config.format).2,
                 quality := 90,
                 buffer := some (render
                   (estimateInitialDimensions (mbToBytes config.targetSizeMB) config.format).1
                   (estimateInitialDimensions (mbToBytes config.targetSizeMB) config.format).2 90),
                 actualSize := some (render
                   (estimateInitialDimensions (mbToBytes config.targetSizeMB) config.format).1
                   (estimateInitialDimensions (mbToBytes config.targetSizeMB) config.format).2 90).length,
                 renders := [((estimateInitialDimensions (mbToBytes config.targetSizeMB) config.format).1,
                              (estimateInitialDimensions (mbToBytes config.targetSizeMB) config.format).2,
                              90)] } := by
      rw [hstep]
      simp only []
      rw [if_pos htol]
      simp
    have hgo := go_accept hmaxpos hstep'
    rw [generate_eq_ok render config hpos hfmt]
    simp only []
    rw [hgo]
    exact ⟨_, rfl, rfl, rfl, rfl, Or.inl ⟨htol, rfl⟩⟩
  · have hstep' : ∃ st3 : LoopState,
        loopIter render (mbToBytes config.targetSizeMB)
          config.tolerance config.format
          { width := (estimateInitialDimensions (mbToBytes config.targetSizeMB) config.format).1,
            height := (estimateInitialDimensions (mbToBytes config.targetSizeMB) config.format).2,
            quality := 90 }
          = .inr st3
        ∧ st3.renders = [((estimateInitialDimensions (mbToBytes config.targetSizeMB) config.format).1,
                          (estimateInitialDimensions (mbToBytes config.targetSizeMB) config.format).2,
                          90)]
        ∧ st3.buffer = some (render
            (estimateInitialDimensions (mbToBytes config.targetSizeMB) config.format).1
            (estimateInitialDimensions (mbToBytes config.targetSizeMB) config.format).2 90)
        ∧ st3.actualSize = some (render
            (estimateInitialDimensions (mbToBytes config.targetSizeMB) config.format).1
            (estimateInitialDimensions (mbToBytes config.targetSizeMB) config.format).2 90).length := by
      rw [hstep]
      simp only []
      rw [if_neg htol]
      split_ifs with hreg hlt
      all_goals refine ⟨_, rfl, ?_, ?_, ?_⟩ <;> simp
    obtain ⟨st3, hst3, hrnd, hbuf, hact⟩ := hstep'
    have hgo : go render (mbToBytes config.targetSizeMB) config.tolerance config.format
        config.maxIterations 0
        { width := (estimateInitialDimensions (mbToBytes config.targetSizeMB) config.format).1,
          height := (estimateInitialDimensions (mbToBytes config.targetSizeMB) config.format).2,
          quality := 90 }
        = (1, st3) := by
      rw [go_continue hmaxpos hst3]
      exact go_stop (by omega)
    rw [generate_eq_ok render config hpos hfmt]
    simp only []
    rw [hgo]
    exact ⟨_, rfl, hrnd, hbuf, hact, Or.inr ⟨htol, rfl⟩⟩

/-- C4 witness: the amended theorem instantiated at the concrete
`maxIterations = 1` jpg configuration with a 1-byte renderer. -/
theorem claim4_witness :
    (0 : ℚ) < ({ targetSizeMB := 27/32, format := "jpg", maxIterations := 1 } : GenerationConfig).targetSizeMB
    ∧ isFormatSupported ({ targetSizeMB := 27/32, format := "jpg", maxIterations := 1 } : GenerationConfig).format = true
    ∧ ({ targetSizeMB := 27/32, format := "jpg", maxIterations := 1 } : GenerationConfig).maxIterations = 1
    ∧ ∃ o, generateImageWithTargetSize (fun _ _ _ => [0])
        { targetSizeMB := 27/32, format := "jpg", maxIterations := 1 } = .ok o
      ∧ o.renders =
          [((estimateInitialDimensions (mbToBytes (27/32)) "jpg").1,
            (estimateInitialDimensions (mbToBytes (27/32)) "jpg").2, 90)]
      ∧ o.buffer = some ((fun (_ : ℤ) (_ : ℤ) (_ : ℕ) => [(0:ℕ)])
          (estimateInitialDimensions (mbToBytes (27/32)) "jpg").1
          (estimateInitialDimensions (mbToBytes (27/32)) "jpg").2 90)
      ∧ o.actualSizeBytes = some ((fun (_ : ℤ) (_ : ℤ) (_ : ℕ) => [(0:ℕ)])
          (estimateInitialDimensions (mbToBytes (27/32)) "jpg").1
          (estimateInitialDimensions (mbToBytes (27/32)) "jpg").2 90).length
      ∧ ((isWithinTolerance (((fun (_ : ℤ) (_ : ℤ) (_ : ℕ) => [(0:ℕ)])
            (estimateInitialDimensions (mbToBytes (27/32)) "jpg").1
            (estimateInitialDimensions (mbToBytes (27/32)) "jpg").2 90).length : ℚ)
            (mbToBytes (27/32)) (5/100)
          ∧ o.iterations = 1)
         ∨ (¬ isWithinTolerance (((fun (_ : ℤ) (_ : ℤ) (_ : ℕ) => [(0:ℕ)])
            (estimateInitialDimensions (mbToBytes (27/32)) "jpg").1
            (estimateInitialDimensions (mbToBytes (27/32)) "jpg").2 90).length : ℚ)
            (mbToBytes (27/32)) (5/100)
          ∧ o.iterations = 2)) :=
  ⟨by norm_num, by decide, rfl,
   claim4_single_iteration (fun _ _ _ => [0])
     { targetSizeMB := 27/32, format := "jpg", maxIterations := 1 }
     (by norm_num) (by decide) rfl⟩

theorem adjust_54_884736 : adjustDimensions 54 884736 1024 576 = (131072, 73728) := by
  unfold adjustDimensions
  simp only []
  rw [show ((884736:ℚ):ℝ) / ((54:ℚ):ℝ) = 128^2 by push_cast; norm_num]
  rw [Real.sqrt_sq (by norm_num : (0:ℝ) ≤ 128)]
  rw [show ((1024:ℤ):ℝ) * 128 = ((131072:ℤ):ℝ) by push_cast; norm_num]
  rw [show ((576:ℤ):ℝ) * 128 = ((73728:ℤ):ℝ) by push_cast; norm_num]
  rw [round_intCast, round_intCast]
  rw [max_eq_left (by norm_num : (50:ℤ) ≤ 131072)]
  rw [max_eq_left (by norm_num : (50:ℤ) ≤ 73728)]

/-- C10: when the loop reaches its final budgeted iteration (counter + 1 =
maxIterations), the render misses tolerance, and the state is in the
dimension regime, the loop exits with width and height set by the final
`adjustDimensions` call — dimensions that are never rendered and are not
clamped to the ceiling — while the returned buffer and measured size are
those of the last render, and the render trace gains only the old
dimensions. -/
theorem claim10_exhausted_returns_adjusted (render : ℤ → ℤ → ℕ → List ℕ)
    (t tol : ℚ) (f : String) (maxIter iter : ℕ) (st : LoopState)
    (hlast : iter + 1 = maxIter)
    (hw : st.width ≤ 32767) (hh : st.height ≤ 32767)
    (htol : ¬ isWithinTolerance ((render st.width st.height st.quality).length : ℚ) t tol)
    (hreg : ¬ ((st.width ≥ 32767 ∨ st.height ≥ 32767) ∧ isJpeg f = true)) :
    go render t tol f maxIter iter st =
      (maxIter,
       { width := (adjustDimensions ((render st.width st.height st.quality).length : ℚ)
                     t st.width st.height).1,
         height := (adjustDimensions ((render st.width st.height st.quality).length : ℚ)
                     t st.width st.height).2,
         quality := st.quality,
         buffer := some (render st.width st.height st.quality),
         actualSize := some (render st.width st.height st.quality).length,
         renders := st.renders ++ [(st.width, st.height, st.quality)] }) := by
  have hstep : loopIter render t tol f st =
      .inr { width := (adjustDimensions ((render st.width st.height st.quality).length : ℚ)
                         t st.width st.height).1,
             height := (adjustDimensions ((render st.width st.height st.quality).length : ℚ)
                         t st.width st.height).2,
             quality := st.quality,
             buffer := some (render st.width st.height st.quality),
             actualSize := some (render st.width st.height st.quality).length,
             renders := st.renders ++ [(st.width, st.height, st.quality)] } := by
    rw [loopIter_no_ceiling render t tol f st hw hh]
    simp only []
    rw [if_neg htol]
    rw [if_neg hreg]
  rw [go_continue (by omega) hstep]
  rw [go_stop (by omega)]
  rw [hlast]

/-- C10 witness: with target 884736 bytes, seed-regime state 1024×576 and a
renderer returning 54 bytes, the budget-exhausted outcome carries
width 131072 and height 73728 — the final `adjustDimensions` output, which
was never rendered, differs from the rendered 1024×576 and exceeds the
32767 ceiling — while the buffer and size of the last render are returned. -/
theorem claim10_witness :
    (0 : ℕ) + 1 = 1
    ∧ (1024 : ℤ) ≤ 32767
    ∧ (576 : ℤ) ≤ 32767
    ∧ ¬ isWithinTolerance ((((fun (_ : ℤ) (_ : ℤ) (_ : ℕ) => List.replicate 54 (0:ℕ))
        (1024:ℤ) (576:ℤ) 90).length : ℚ)) 884736 (5/100)
    ∧ ¬ (((1024:ℤ) ≥ 32767 ∨ (576:ℤ) ≥ 32767) ∧ isJpeg "jpg" = true)
    ∧ go (fun _ _ _ => List.replicate 54 (0:ℕ)) 884736 (5/100) "jpg" 1 0
        { width := 1024, height := 576, quality := 90 }
      = (1,
         { width := (adjustDimensions (((List.replicate 54 (0:ℕ)).length : ℕ) : ℚ)
                       884736 1024 576).1,
           height := (adjustDimensions (((List.replicate 54 (0:ℕ)).length : ℕ) : ℚ)
                       884736 1024 576).2,
           quality := 90,
           buffer := some (List.replicate 54 (0:ℕ)),
           actualSize := some (List.replicate 54 (0:ℕ)).length,
           renders := [(1024, 576, 90)] })
    ∧ adjustDimensions 54 884736 1024 576 = (131072, 73728)
    ∧ (32767 : ℤ) < 131072
    ∧ (131072 : ℤ) ≠ 1024 := by
  have hten : ¬ isWithinTolerance ((((fun (_ : ℤ) (_ : ℤ) (_ : ℕ) => List.replicate 54 (0:ℕ))
      (1024:ℤ) (576:ℤ) 90).length : ℚ)) 884736 (5/100) := by
    simp only [List.length_replicate]
    unfold isWithinTolerance
    push_cast
    norm_num
  have hreg : ¬ (((1024:ℤ) ≥ 32767 ∨ (576:ℤ) ≥ 32767) ∧ isJpeg "jpg" = true) := by
    norm_num
  have hmain := claim10_exhausted_returns_adjusted
    (fun _ _ _ => List.replicate 54 (0:ℕ)) 884736 (5/100) "jpg" 1 0
    { width := 1024, height := 576, quality := 90 }
    rfl (by norm_num) (by norm_num) hten hreg
  refine ⟨rfl, by norm_num, by norm_num, hten, hreg, ?_, adjust_54_884736,
    by norm_num, by norm_num⟩
  rw [hmain]
  simp

theorem loopIter_quality_step (render : ℤ → ℤ → ℕ → List ℕ) (t tol : ℚ)
    (f : String) (st : LoopState)
    (hj : isJpeg f = true)
    (hw : st.width ≤ 32767) (hh : st.height ≤ 32767)
    (hr : 32767 ≤ st.width ∨ 32767 ≤ st.height)
    (htol : ¬ isWithinTolerance ((render st.width st.height st.quality).length : ℚ) t tol) :
    loopIter render t tol f st =
      .inr { st with
        buffer := some (render st.width st.height st.quality)
        actualSize := some (render st.width st.height st.quality).length
        renders := st.renders ++ [(st.width, st.height, st.quality)]
        quality :=
          if ((render st.width st.height st.quality).length : ℚ) < t then
            min 100 (st.quality + 5)
          else max 10 (st.quality - 5) } := by
  rw [loopIter_no_ceiling render t tol f st hw hh]
  simp only []
  rw [if_neg htol]
  rw [if_pos (show _ ∧ _ from ⟨hr, hj⟩)]

theorem go_quality_regime_aux (render : ℤ → ℤ → ℕ → List ℕ) (t tol : ℚ)
    (f : String) (maxIter : ℕ) (hj : isJpeg f = true) :
    ∀ (n iter : ℕ) (st : LoopState), maxIter - iter ≤ n →
      st.width ≤ 32767 → st.height ≤ 32767 →
      32767 ≤ st.width ∨ 32767 ≤ st.height →
      ((go render t tol f maxIter iter st).2.width = st.width
       ∧ (go render t tol f maxIter iter st).2.height = st.height
       ∧ ∀ c ∈ (go render t tol f maxIter iter st).2.renders,
           c ∈ st.renders ∨ (c.1 = st.width ∧ c.2.1 = st.height)) := by
  intro n
  induction n with
  | zero =>
    intro iter st hn hw hh hr
    rw [go_stop (by omega)]
    exact ⟨rfl, rfl, fun c hc => Or.inl hc⟩
  | succ n ih =>
    intro iter st hn hw hh hr
    by_cases hiter : iter < maxIter
    · by_cases htol : isWithinTolerance ((render st.width st.height st.quality).length : ℚ) t tol
      · have hstep : loopIter render t tol f st =
            .inl { st with
              buffer := some (render st.width st.height st.quality)
              actualSize := some (render st.width st.height st.quality).length
              renders := st.renders ++ [(st.width, st.height, st.quality)] } := by
          rw [loopIter_no_ceiling render t tol f st hw hh]
          simp only []
          rw [if_pos htol]
        rw [go_accept hiter hstep]
        refine ⟨rfl, rfl, ?_⟩
        intro c hc
        rcases List.mem_append.mp hc with hcl | hcr
        · exact Or.inl hcl
        · refine Or.inr ?_
          rcases List.mem_singleton.mp hcr with rfl
          exact ⟨rfl, rfl⟩
      · have hstep := loopIter_quality_step render t tol f st hj hw hh hr htol
        rw [go_continue hiter hstep]
        have ihres := ih (iter + 1)
          { st with
            buffer := some (render st.width st.height st.quality)
            actualSize := some (render st.width st.height st.quality).length
            renders := st.renders ++ [(st.width, st.height, st.quality)]
            quality :=
              if ((render st.width st.height st.quality).length : ℚ) < t then
                min 100 (st.quality + 5)
              else max 10 (st.quality - 5) }
          (by omega) hw hh hr
        refine ⟨ihres.1, ihres.2.1, ?_⟩
        intro c hc
        rcases ihres.2.2 c hc with hmem | hdims
        · rcases List.mem_append.mp hmem with hcl | hcr
          · exact Or.inl hcl
          · refine Or.inr ?_
            rcases List.mem_singleton.mp hcr with rfl
            exact ⟨rfl, rfl⟩
        · exact Or.inr hdims
    · rw [go_stop hiter]
      exact ⟨rfl, rfl, fun c hc => Or.inl hc⟩

/-- C7: for a jpg/jpeg request, once the loop state is in the
ceiling/quality regime (dimensions clamped to at most 32767 with at least
one of them at the ceiling), every subsequent non-accepting iteration
performs only the quality adjustment — +5 capped at 100 when the actual
size is below target, −5 floored at 10 otherwise — and the width and
height never change for the remainder of the call: the final state keeps
the entry dimensions and every later render call uses them, so the loop
never returns from quality search to dimension search. -/
theorem claim7_quality_regime_is_absorbing :
    (∀ (render : ℤ → ℤ → ℕ → List ℕ) (t tol : ℚ) (f : String)
       (maxIter iter : ℕ) (st : LoopState),
       isJpeg f = true →
       st.width ≤ 32767 → st.height ≤ 32767 →
       32767 ≤ st.width ∨ 32767 ≤ st.height →
       ((go render t tol f maxIter iter st).2.width = st.width
        ∧ (go render t tol f maxIter iter st).2.height = st.height
        ∧ ∀ c ∈ (go render t tol f maxIter iter st).2.renders,
            c ∈ st.renders ∨ (c.1 = st.width ∧ c.2.1 = st.height)))
    ∧ (∀ (render : ℤ → ℤ → ℕ → List ℕ) (t tol : ℚ) (f : String) (st : LoopState),
       isJpeg f = true →
       st.width ≤ 32767 → st.height ≤ 32767 →
       32767 ≤ st.width ∨ 32767 ≤ st.height →
       ¬ isWithinTolerance ((render st.width st.height st.quality).length : ℚ) t tol →
       loopIter render t tol f st =
         .inr { st with
           buffer := some (render st.width st.height st.quality)
           actualSize := some (render st.width st.height st.quality).length
           renders := st.renders ++ [(st.width, st.height, st.quality)]
           quality :=
             if ((render st.width st.height st.quality).length : ℚ) < t then
               min 100 (st.quality + 5)
             else max 10 (st.quality - 5) }) :=
  ⟨fun render t tol f maxIter iter st hj hw hh hr =>
     go_quality_regime_aux render t tol f maxIter hj (maxIter - iter) iter st le_rfl hw hh hr,
   fun render t tol f st hj hw hh hr htol =>
     loopIter_quality_step render t tol f st hj hw hh hr htol⟩

/-- C7 witness: a jpg state at the ceiling (32767×18431) with a 1-byte
renderer: the loop keeps the dimensions and the non-accepting step bumps
only the quality. -/
theorem claim7_witness :
    isJpeg "jpg" = true
    ∧ ({ width := 32767, height := 18431, quality := 90 } : LoopState).width ≤ 32767
    ∧ ({ width := 32767, height := 18431, quality := 90 } : LoopState).height ≤ 32767
    ∧ (32767 ≤ ({ width := 32767, height := 18431, quality := 90 } : LoopState).width
       ∨ 32767 ≤ ({ width := 32767, height := 18431, quality := 90 } : LoopState).height)
    ∧ ((go (fun _ _ _ => [0]) 1073741824 (5/100) "jpg" 3 0
          { width := 32767, height := 18431, quality := 90 }).2.width = 32767
       ∧ (go (fun _ _ _ => [0]) 1073741824 (5/100) "jpg" 3 0
          { width := 32767, height := 18431, quality := 90 }).2.height = 18431
       ∧ ∀ c ∈ (go (fun _ _ _ => [0]) 1073741824 (5/100) "jpg" 3 0
          { width := 32767, height := 18431, quality := 90 }).2.renders,
           c ∈ ({ width := 32767, height := 18431, quality := 90 } : LoopState).renders
           ∨ (c.1 = 32767 ∧ c.2.1 = 18431)) := by
  have hmain := claim7_quality_regime_is_absorbing.1 (fun _ _ _ => [0]) 1073741824 (5/100)
    "jpg" 3 0 { width := 32767, height := 18431, quality := 90 }
    (by decide) (by norm_num) (by norm_num) (Or.inl (by norm_num))
  exact ⟨by decide, by norm_num, by norm_num, Or.inl (by norm_num), hmain⟩

theorem box_to_inv {w h : ℤ} (h50w : 50 ≤ w) (hwle : w ≤ 32767)
    (h50h : 50 ≤ h) (hhle : h ≤ 32767) : dimInv w h := by
  unfold dimInv
  omega

theorem ceilingStep_renders (t : ℚ) (f : String) (st : LoopState) :
    (ceilingStep t f st).renders = st.renders := by
  unfold ceilingStep
  split_ifs <;> rfl

theorem ceilingStep_box (t : ℚ) (f : String) (st : LoopState)
    (hinv : dimInv st.width st.height) :
    50 ≤ (ceilingStep t f st).width ∧ (ceilingStep t f st).width ≤ 32767
    ∧ 50 ≤ (ceilingStep t f st).height ∧ (ceilingStep t f st).height ≤ 32767 := by
  obtain ⟨h50w, h50h, haw, hah⟩ := hinv
  have hw0 : (0:ℚ) < (st.width : ℚ) := by exact_mod_cast lt_of_lt_of_le (by norm_num) h50w
  have hh0 : (0:ℚ) < (st.height : ℚ) := by exact_mod_cast lt_of_lt_of_le (by norm_num) h50h
  unfold ceilingStep
  by_cases hover : st.width > 32767 ∨ st.height > 32767
  · rw [if_pos hover]
    simp only []
    by_cases hwh : st.width > st.height
    · rw [if_pos hwh]
      have hround : (50:ℤ) ≤ round ((32767:ℚ) / ((st.width : ℚ) / (st.height : ℚ))) := by
        apply le_round_of_half_le
        rw [div_div_eq_mul_div]
        rw [show ((50:ℤ):ℚ) - 1/2 = 99/2 by norm_num]
        rw [le_div_iff hw0]
        have hawq : (99:ℚ) * (st.width:ℚ) ≤ 65534 * (st.height:ℚ) := by exact_mod_cast haw
        linarith
      exact ⟨le_min (by norm_num) (by norm_num), min_le_right _ _,
             le_min hround (by norm_num), min_le_right _ _⟩
    · rw [if_neg hwh]
      have hround : (50:ℤ) ≤ round ((32767:ℚ) * ((st.width : ℚ) / (st.height : ℚ))) := by
        apply le_round_of_half_le
        rw [mul_div_assoc']
        rw [show ((50:ℤ):ℚ) - 1/2 = 99/2 by norm_num]
        rw [le_div_iff hh0]
        have hahq : (99:ℚ) * (st.height:ℚ) ≤ 65534 * (st.width:ℚ) := by exact_mod_cast hah
        linarith
      exact ⟨le_min hround (by norm_num), min_le_right _ _,
             le_min (by norm_num) (by norm_num), min_le_right _ _⟩
  · rw [if_neg hover]
    push_neg at hover
    exact ⟨h50w, hover.1, h50h, hover.2⟩

theorem loopIter_ceiling_absorb (render : ℤ → ℤ → ℕ → List ℕ) (t tol : ℚ)
    (f : String) (st : LoopState)
    (hw : (ceilingStep t f st).width ≤ 32767)
    (hh : (ceilingStep t f st).height ≤ 32767) :
    loopIter render t tol f st = loopIter render t tol f (ceilingStep t f st) := by
  conv_rhs => rw [loopIter]
  rw [ceilingStep_of_le t f (ceilingStep t f st) hw hh]
  rw [loopIter]

theorem round_scale_side (s : ℝ) (hs0 : 0 ≤ s) (w h : ℤ)
    (hwle : w ≤ 32767) (hhge : 50 ≤ h) :
    99 * max (round ((w:ℝ) * s)) 50 ≤ 65534 * max (round ((h:ℝ) * s)) 50 := by
  have hwr : (w:ℝ) ≤ 32767 := by exact_mod_cast hwle
  have hhr : (50:ℝ) ≤ (h:ℝ) := by exact_mod_cast hhge
  have p1 : (w:ℝ) * s ≤ 32767 * s := mul_le_mul_of_nonneg_right hwr hs0
  have p2 : (50:ℝ) * s ≤ (h:ℝ) * s := mul_le_mul_of_nonneg_right hhr hs0
  have hcross : 50 * ((w:ℝ) * s) ≤ 32767 * ((h:ℝ) * s) := by linarith
  have hWub : ((round ((w:ℝ) * s) : ℤ) : ℝ) ≤ (w:ℝ) * s + 1/2 := round_le_add_half _
  have hHlb : (h:ℝ) * s - 1/2 < ((round ((h:ℝ) * s) : ℤ) : ℝ) := round_lt_half_add
  have hHub : ((round ((h:ℝ) * s) : ℤ) : ℝ) ≤ (h:ℝ) * s + 1/2 := round_le_add_half _
  by_cases hH50 : round ((h:ℝ) * s) ≤ 50
  · rw [max_eq_right hH50]
    by_cases hW50 : round ((w:ℝ) * s) ≤ 50
    · rw [max_eq_right hW50]
      norm_num
    · rw [max_eq_left (by omega)]
      have h1 : (h:ℝ) * s < 101/2 := by
        have hcast : ((round ((h:ℝ) * s) : ℤ) : ℝ) ≤ 50 := by exact_mod_cast hH50
        linarith
      have h3 : ((round ((w:ℝ) * s) : ℤ) : ℝ) < 33096 := by linarith
      have h4 : round ((w:ℝ) * s) < 33096 := by exact_mod_cast h3
      omega
  · rw [max_eq_left (by omega : (50:ℤ) ≤ round ((h:ℝ) * s))]
    by_cases hW50 : round ((w:ℝ) * s) ≤ 50
    · rw [max_eq_right hW50]
      omega
    · rw [max_eq_left (by omega)]
      have h1 : (101:ℝ)/2 ≤ (h:ℝ) * s := by
        have hcast : (51:ℝ) ≤ ((round ((h:ℝ) * s) : ℤ) : ℝ) := by
          exact_mod_cast (by omega : (51:ℤ) ≤ round ((h:ℝ) * s))
        linarith
      have key : 99 * ((round ((w:ℝ) * s) : ℤ) : ℝ)
          ≤ 65534 * ((round ((h:ℝ) * s) : ℤ) : ℝ) := by linarith
      exact_mod_cast key

theorem adjustDimensions_inv (a t : ℚ) (w h : ℤ)
    (h50w : 50 ≤ w) (hwle : w ≤ 32767) (h50h : 50 ≤ h) (hhle : h ≤ 32767) :
    dimInv (adjustDimensions a t w h).1 (adjustDimensions a t w h).2 := by
  unfold adjustDimensions dimInv
  simp only []
  refine ⟨le_max_right _ _, le_max_right _ _, ?_, ?_⟩
  · exact round_scale_side _ (Real.sqrt_nonneg _) w h hwle h50h
  · exact round_scale_side _ (Real.sqrt_nonneg _) h w hhle h50w

theorem go_inv_aux (render : ℤ → ℤ → ℕ → List ℕ) (t tol : ℚ)
    (f : String) (maxIter : ℕ) :
    ∀ (n iter : ℕ) (st : LoopState), maxIter - iter ≤ n →
      dimInv st.width st.height →
      (dimInv (go render t tol f maxIter iter st).2.width
              (go render t tol f maxIter iter st).2.height
       ∧ ∀ c ∈ (go render t tol f maxIter iter st).2.renders,
           c ∈ st.renders ∨ (50 ≤ c.1 ∧ c.1 ≤ 32767 ∧ 50 ≤ c.2.1 ∧ c.2.1 ≤ 32767)) := by
  intro n
  induction n with
  | zero =>
    intro iter st hn hinv
    rw [go_stop (by omega)]
    exact ⟨hinv, fun c hc => Or.inl hc⟩
  | succ n ih =>
    intro iter st hn hinv
    by_cases hiter : iter < maxIter
    · obtain ⟨hb1, hb2, hb3, hb4⟩ := ceilingStep_box t f st hinv
      have hinv1 : dimInv (ceilingStep t f st).width (ceilingStep t f st).height :=
        box_to_inv hb1 hb2 hb3 hb4
      have habs := loopIter_ceiling_absorb render t tol f st hb2 hb4
      have hboxcall : 50 ≤ (ceilingStep t f st).width
          ∧ (ceilingStep t f st).width ≤ 32767
          ∧ 50 ≤ (ceilingStep t f st).height
          ∧ (ceilingStep t f st).height ≤ 32767 := ⟨hb1, hb2, hb3, hb4⟩
      by_cases htol : isWithinTolerance
          ((render (ceilingStep t f st).width (ceilingStep t f st).height
            (ceilingStep t f st).quality).length : ℚ) t tol
      · have hstep : loopIter render t tol f st =
            .inl { ceilingStep t f st with
              buffer := some (render (ceilingStep t f st).width
                (ceilingStep t f st).height (ceilingStep t f st).quality)
              actualSize := some (render (ceilingStep t f st).width
                (ceilingStep t f st).height (ceilingStep t f st).quality).length
              renders := (ceilingStep t f st).renders
                ++ [((ceilingStep t f st).width, (ceilingStep t f st).height,
                     (ceilingStep t f st).quality)] } := by
          rw [habs, loopIter_no_ceiling render t tol f (ceilingStep t f st) hb2 hb4]
          simp only []
          rw [if_pos htol]
        rw [go_accept hiter hstep]
        refine ⟨hinv1, ?_⟩
        intro c hc
        rw [show ({ ceilingStep t f st with
              buffer := some (render (ceilingStep t f st).width
                (ceilingStep t f st).height (ceilingStep t f st).quality)
              actualSize := some (render (ceilingStep t f st).width
                (ceilingStep t f st).height (ceilingStep t f st).quality).length
              renders := (ceilingStep t f st).renders
                ++ [((ceilingStep t f st).width, (ceilingStep t f st).height,
                     (ceilingStep t f st).quality)] } : LoopState).renders
            = (ceilingStep t f st).renders
              ++ [((ceilingStep t f st).width, (ceilingStep t f st).height,
                   (ceilingStep t f st).quality)] from rfl] at hc
        rw [ceilingStep_renders t f st] at hc
        rcases List.mem_append.mp hc with hcl | hcr
        · exact Or.inl hcl
        · rcases List.mem_singleton.mp hcr with rfl
          exact Or.inr ⟨hb1, hb2, hb3, hb4⟩
      · by_cases hreg : ((ceilingStep t f st).width ≥ 32767
            ∨ (ceilingStep t f st).height ≥ 32767) ∧ isJpeg f = true
        · have hstep : loopIter render t tol f st =
              .inr { ceilingStep t f st with
                buffer := some (render (ceilingStep t f st).width
                  (ceilingStep t f st).height (ceilingStep t f st).quality)
                actualSize := some (render (ceilingStep t f st).width
                  (ceilingStep t f st).height (ceilingStep t f st).quality).length
                renders := (ceilingStep t f st).renders
                  ++ [((ceilingStep t f st).width, (ceilingStep t f st).height,
                       (ceilingStep t f st).quality)]
                quality :=
                  if ((render (ceilingStep t f st).width (ceilingStep t f st).height
                        (ceilingStep t f st).quality).length : ℚ) < t then
                    min 100 ((ceilingStep t f st).quality + 5)
                  else max 10 ((ceilingStep t f st).quality - 5) } := by
            rw [habs, loopIter_no_ceiling render t tol f (ceilingStep t f st) hb2 hb4]
            simp only []
            rw [if_neg htol]
            rw [if_pos hreg]
          rw [go_continue hiter hstep]
          have ihres := ih (iter + 1)
            { ceilingStep t f st with
                buffer := some (render (ceilingStep t f st).width
                  (ceilingStep t f st).height (ceilingStep t f st).quality)
                actualSize := some (render (ceilingStep t f st).width
                  (ceilingStep t f st).height (ceilingStep t f st).quality).length
                renders := (ceilingStep t f st).renders
                  ++ [((ceilingStep t f st).width, (ceilingStep t f st).height,
                       (ceilingStep t f st).quality)]
                quality :=
                  if ((render (ceilingStep t f st).width (ceilingStep t f st).height
                        (ceilingStep t f st).quality).length : ℚ) < t then
                    min 100 ((ceilingStep t f st).quality + 5)
                  else max 10 ((ceilingStep t f st).quality - 5) }
            (by omega) hinv1
          refine ⟨ihres.1, ?_⟩
          intro c hc
          rcases ihres.2 c hc with hmem | hbox
          · rw [show ({ ceilingStep t f st with
                buffer := some (render (ceilingStep t f st).width
                  (ceilingStep t f st).height (ceilingStep t f st).quality)
                actualSize := some (render (ceilingStep t f st).width
                  (ceilingStep t f st).height (ceilingStep t f st).quality).length
                renders := (ceilingStep t f st).renders
                  ++ [((ceilingStep t f st).width, (ceilingStep t f st).height,
                       (ceilingStep t f st).quality)]
                quality :=
                  if ((render (ceilingStep t f st).width (ceilingStep t f st).height
                        (ceilingStep t f st).quality).length : ℚ) < t then
                    min 100 ((ceilingStep t f st).quality + 5)
                  else max 10 ((ceilingStep t f st).quality - 5) } : LoopState).renders
              = (ceilingStep t f st).renders
                ++ [((ceilingStep t f st).width, (ceilingStep t f st).height,
                     (ceilingStep t f st).quality)] from rfl] at hmem
            rw [ceilingStep_renders t f st] at hmem
            rcases List.mem_append.mp hmem with hcl | hcr
            · exact Or.inl hcl
            · rcases List.mem_singleton.mp hcr with rfl
              exact Or.inr ⟨hb1, hb2, hb3, hb4⟩
          · exact Or.inr hbox
        · have hstep : loopIter render t tol f st =
              .inr { ceilingStep t f st with
                buffer := some (render (ceilingStep t f st).width
                  (ceilingStep t f st).height (ceilingStep t f st).quality)
                actualSize := some (render (ceilingStep t f st).width
                  (ceilingStep t f st).height (ceilingStep t f st).quality).length
                renders := (ceilingStep t f st).renders
                  ++ [((ceilingStep t f st).width, (ceilingStep t f st).height,
                       (ceilingStep t f st).quality)]
                width := (adjustDimensions ((render (ceilingStep t f st).width
                    (ceilingStep t f st).height (ceilingStep t f st).quality).length : ℚ)
                    t (ceilingStep t f st).width (ceilingStep t f st).height).1
                height := (adjustDimensions ((render (ceilingStep t f st).width
                    (ceilingStep t f st).height (ceilingStep t f st).quality).length : ℚ)
                    t (ceilingStep t f st).width (ceilingStep t f st).height).2 } := by
            rw [habs, loopIter_no_ceiling render t tol f (ceilingStep t f st) hb2 hb4]
            simp only []
            rw [if_neg htol]
            rw [if_neg hreg]
          rw [go_continue hiter hstep]
          have hinv2 := adjustDimensions_inv
            ((render (ceilingStep t f st).width (ceilingStep t f st).height
              (ceilingStep t f st).quality).length : ℚ) t
            (ceilingStep t f st).width (ceilingStep t f st).height hb1 hb2 hb3 hb4
          have ihres := ih (iter + 1)
            { ceilingStep t f st with
                buffer := some (render (ceilingStep t f st).width
                  (ceilingStep t f st).height (ceilingStep t f st).quality)
                actualSize := some (render (ceilingStep t f st).width
                  (ceilingStep t f st).height (ceilingStep t f st).quality).length
                renders := (ceilingStep t f st).renders
                  ++ [((ceilingStep t f st).width, (ceilingStep t f st).height,
                       (ceilingStep t f st).quality)]
                width := (adjustDimensions ((render (ceilingStep t f st).width
                    (ceilingStep t f st).height (ceilingStep t f st).quality).length : ℚ)
                    t (ceilingStep t f st).width (ceilingStep t f st).height).1
                height := (adjustDimensions ((render (ceilingStep t f st).width
                    (ceilingStep t f st).height (ceilingStep t f st).quality).length : ℚ)
                    t (ceilingStep t f st).width (ceilingStep t f st).height).2 }
            (by omega) hinv2
          refine ⟨ihres.1, ?_⟩
          intro c hc
          rcases ihres.2 c hc with hmem | hbox
          · rw [show ({ ceilingStep t f st with
                buffer := some (render (ceilingStep t f st).width
                  (ceilingStep t f st).height (ceilingStep t f st).quality)
                actualSize := some (render (ceilingStep t f st).width
                  (ceilingStep t f st).height (ceilingStep t f st).quality).length
                renders := (ceilingStep t f st).renders
                  ++ [((ceilingStep t f st).width, (ceilingStep t f st).height,
                       (ceilingStep t f st).quality)]
                width := (adjustDimensions ((render (ceilingStep t f st).width
                    (ceilingStep t f st).height (ceilingStep t f st).quality).length : ℚ)
                    t (ceilingStep t f st).width (ceilingStep t f st).height).1
                height := (adjustDimensions ((render (ceilingStep t f st).width
                    (ceilingStep t f st).height (ceilingStep t f st).quality).length : ℚ)
                    t (ceilingStep t f st).width (ceilingStep t f st).height).2 } : LoopState).renders
              = (ceilingStep t f st).renders
                ++ [((ceilingStep t f st).width, (ceilingStep t f st).height,
                     (ceilingStep t f st).quality)] from rfl] at hmem
            rw [ceilingStep_renders t f st] at hmem
            rcases List.mem_append.mp hmem with hcl | hcr
            · exact Or.inl hcl
            · rcases List.mem_singleton.mp hcr with rfl
              exact Or.inr ⟨hb1, hb2, hb3, hb4⟩
          · exact Or.inr hbox
    · rw [go_stop hiter]
      exact ⟨hinv, fun c hc => Or.inl hc⟩

/-- C6: for every valid configuration and every renderer, the call
succeeds, every render invocation happens with `50 ≤ width ≤ 32767` and
`50 ≤ height ≤ 32767` (the ceiling step clamps before each render, and
every adjusted state respects the 50 floor), and the dimensions of the
returned outcome are at least 50. -/
theorem claim6_dimension_invariants (render : ℤ → ℤ → ℕ → List ℕ)
    (config : GenerationConfig)
    (hpos : 0 < config.targetSizeMB)
    (hfmt : isFormatSupported config.format = true) :
    ∃ o, generateImageWithTargetSize render config = .ok o
      ∧ (∀ c ∈ o.renders, 50 ≤ c.1 ∧ c.1 ≤ 32767 ∧ 50 ≤ c.2.1 ∧ c.2.1 ≤ 32767)
      ∧ 50 ≤ o.width ∧ 50 ≤ o.height := by
  have htb : 0 < mbToBytes config.targetSizeMB := by
    unfold mbToBytes
    exact mul_pos hpos (by norm_num)
  obtain ⟨hce1, hce2⟩ := estimate_le_ceiling (mbToBytes config.targetSizeMB) config.format htb
  obtain ⟨hfl1, hfl2⟩ := estimate_ge_floor (mbToBytes config.targetSizeMB) config.format
  have hinv0 : dimInv
      ({ width := (estimateInitialDimensions (mbToBytes config.targetSizeMB) config.format).1,
         height := (estimateInitialDimensions (mbToBytes config.targetSizeMB) config.format).2,
         quality := 90 } : LoopState).width
      ({ width := (estimateInitialDimensions (mbToBytes config.targetSizeMB) config.format).1,
         height := (estimateInitialDimensions (mbToBytes config.targetSizeMB) config.format).2,
         quality := 90 } : LoopState).height :=
    box_to_inv (le_trans (by norm_num) hfl1) hce1 (le_trans (by norm_num) hfl2) hce2
  have hmain := go_inv_aux render (mbToBytes config.targetSizeMB) config.tolerance
    config.format config.maxIterations config.maxIterations 0
    { width := (estimateInitialDimensions (mbToBytes config.targetSizeMB) config.format).1,
      height := (estimateInitialDimensions (mbToBytes config.targetSizeMB) config.format).2,
      quality := 90 } (by omega) hinv0
  rw [generate_eq_ok render config hpos hfmt]
  simp only []
  refine ⟨_, rfl, ?_, hmain.1.1, hmain.1.2.1⟩
  intro c hc
  rcases hmain.2 c hc with hmem | hbox
  · simp at hmem
  · exact hbox

/-- C6 witness: the invariant instantiated at a 1 MB jpg configuration with
a constant 1-byte renderer. -/
theorem claim6_witness :
    (0 : ℚ) < ({ targetSizeMB := 1, format := "jpg" } : GenerationConfig).targetSizeMB
    ∧ isFormatSupported ({ targetSizeMB := 1, format := "jpg" } : GenerationConfig).format = true
    ∧ ∃ o, generateImageWithTargetSize (fun _ _ _ => [0])
        { targetSizeMB := 1, format := "jpg" } = .ok o
      ∧ (∀ c ∈ o.renders, 50 ≤ c.1 ∧ c.1 ≤ 32767 ∧ 50 ≤ c.2.1 ∧ c.2.1 ≤ 32767)
      ∧ 50 ≤ o.width ∧ 50 ≤ o.height :=
  ⟨by norm_num, by decide,
   claim6_dimension_invariants (fun _ _ _ => [0])
     { targetSizeMB := 1, format := "jpg" } (by norm_num) (by decide)⟩

end ImageGen
